import Mathlib

/-!
Verification of the query-classification and response-formatting pipeline of
the HSA/FSA/COBRA benefits-administration backend.

The Python source is embedded shallowly: Python strings are modelled as
`List Char` so that every operation is a structural recursion the kernel can
evaluate; dictionaries holding the five wellness metrics are modelled as a
record of optional fields; the LLM call that may raise is modelled as an
`Except` value fed to the step that consumes it.  Every definition mirrors
the corresponding function in `src/backend/src/agents` line by line.
-/

/-- A Python string, modelled as its list of characters. -/
abbrev Str := List Char

/-- Python `str.lower()` (the source only ever lower-cases ASCII text). -/
def strLower (s : Str) : Str := s.map Char.toLower

/-- Python whitespace as recognised by `str.strip()`. -/
def pySpace (c : Char) : Bool :=
  c == ' ' || c == '\t' || c == '\n' || c == '\r' || c == '\x0b' || c == '\x0c'

/-- Python `str.strip()`: drop leading and trailing whitespace. -/
def strTrim (s : Str) : Str :=
  ((s.dropWhile pySpace).reverse.dropWhile pySpace).reverse

/-- `strStartsWith pat s` is Python `s.startswith(pat)`. -/
def strStartsWith : Str → Str → Bool
  | [], _ => true
  | _ :: _, [] => false
  | p :: ps, c :: cs => p == c && strStartsWith ps cs

/-- `strContains s sub` is Python `sub in s`. -/
def strContains : Str → Str → Bool
  | [], sub => sub.isEmpty
  | c :: cs, sub => strStartsWith sub (c :: cs) || strContains cs sub

/-- Worker for `strSplitOn`; the fuel is an upper bound on the characters
still to scan, so the `0` case is unreachable for the initial fuel. -/
def splitOnFuel (sep : Str) : Nat → Str → Str → List Str
  | _, [], acc => [acc.reverse]
  | 0, s, acc => [acc.reverse ++ s]
  | Nat.succ fuel, c :: cs, acc =>
    if strStartsWith sep (c :: cs) then
      acc.reverse :: splitOnFuel sep fuel (List.drop sep.length (c :: cs)) []
    else
      splitOnFuel sep fuel cs (c :: acc)

/-- Python `s.split(sep)` for a non-empty separator: split on every
non-overlapping occurrence, scanning left to right. -/
def strSplitOn (s sep : Str) : List Str :=
  if sep.isEmpty then [s] else splitOnFuel sep s.length s []

/-- Join a list of strings with a separator (used to recover the text that
follows the first occurrence of a pattern from `strSplitOn`). -/
def strIntercalate (sep : Str) : List Str → Str
  | [] => []
  | [x] => x
  | x :: xs => x ++ sep ++ strIntercalate sep xs

/-- The text after the first occurrence of `pat` in `s`, or `none` when
`pat` does not occur; mirrors `re.search(r"pat(.*?)$", s, re.DOTALL)`
followed by `.strip()` at every use site. -/
def strAfterFirst (s pat : Str) : Option Str :=
  match strSplitOn s pat with
  | [] => none
  | [_] => none
  | _ :: rest => some (strIntercalate pat rest)

/-- `ManagerAgent._determine_query_type`: ordered conjunctive keyword rules
over the lower-cased query; first match wins, default is General. -/
def determineQueryType (query : Str) : Str :=
  let q := strLower query
  if strContains q ("hsa".data) && strContains q ("fsa".data) then
    "HSA Benefits".data
  else if strContains q ("fsa".data) && strContains q ("reimbursement".data) then
    "FSA Reimbursement Process".data
  else if strContains q ("fsa".data) && strContains q ("contribution".data) then
    "FSA Contribution Changes".data
  else if strContains q ("fsa".data) then
    "FSA Benefits".data
  else if strContains q ("hsa".data) && strContains q ("contribution".data) then
    "HSA Contribution Limits".data
  else if strContains q ("hsa".data) then
    "HSA Benefits".data
  else if strContains q ("cobra".data) then
    "COBRA Benefits".data
  else
    "General Benefits".data

/-- C1 counterexample: the query "HSA FSA REIMBURSEMENT" contains both "fsa"
and "reimbursement" case-insensitively, yet the classifier returns
"HSA Benefits", not "FSA Reimbursement Process", because the combined
HSA-and-FSA rule is tested first. -/
theorem classify_fsa_reimb_hsa_cex :
    strContains (strLower ("HSA FSA REIMBURSEMENT".data)) ("fsa".data) = true ∧
    strContains (strLower ("HSA FSA REIMBURSEMENT".data)) ("reimbursement".data) = true ∧
    determineQueryType ("HSA FSA REIMBURSEMENT".data) = "HSA Benefits".data ∧
    determineQueryType ("HSA FSA REIMBURSEMENT".data) ≠ "FSA Reimbursement Process".data := by
  refine ⟨by decide, by decide, by decide, by decide⟩

/-- C1 (amended): for every query containing both "fsa" and "reimbursement"
case-insensitively, the classifier returns "FSA Reimbursement Process"
provided the query does not also contain "hsa"; and regardless of "hsa" it
never returns the plain "FSA Benefits" topic. -/
theorem classify_fsa_reimb_amended (q : Str)
    (hf : strContains (strLower q) ("fsa".data) = true)
    (hr : strContains (strLower q) ("reimbursement".data) = true) :
    (strContains (strLower q) ("hsa".data) = false →
      determineQueryType q = "FSA Reimbursement Process".data) ∧
    determineQueryType q ≠ "FSA Benefits".data := by
  constructor
  · intro hh
    simp [determineQueryType, hh, hf, hr]
  · cases hh : strContains (strLower q) ("hsa".data) with
    | false =>
      have h1 : determineQueryType q = "FSA Reimbursement Process".data := by
        simp [determineQueryType, hh, hf, hr]
      rw [h1]; decide
    | true =>
      have h1 : determineQueryType q = "HSA Benefits".data := by
        simp [determineQueryType, hh, hf]
      rw [h1]; decide

/-- C1 witness: the amended theorem applied to the concrete query
"fsa reimbursement". -/
theorem classify_fsa_reimb_amended_w :
    strContains (strLower ("fsa reimbursement".data)) ("fsa".data) = true ∧
    strContains (strLower ("fsa reimbursement".data)) ("reimbursement".data) = true ∧
    ((strContains (strLower ("fsa reimbursement".data)) ("hsa".data) = false →
        determineQueryType ("fsa reimbursement".data) = "FSA Reimbursement Process".data) ∧
      determineQueryType ("fsa reimbursement".data) ≠ "FSA Benefits".data) :=
  ⟨by decide, by decide,
    classify_fsa_reimb_amended ("fsa reimbursement".data) (by decide) (by decide)⟩

/-- C10: every query containing both "hsa" and "fsa" case-insensitively is
classified "HSA Benefits", whatever else it contains, because the combined
HSA-and-FSA rule is the first rule tested. -/
theorem classify_hsa_and_fsa (q : Str)
    (hh : strContains (strLower q) ("hsa".data) = true)
    (hf : strContains (strLower q) ("fsa".data) = true) :
    determineQueryType q = "HSA Benefits".data := by
  simp [determineQueryType, hh, hf]

/-- C10 witness: the theorem applied to a concrete query that also mentions
reimbursement, contribution and COBRA. -/
theorem classify_hsa_and_fsa_w :
    strContains (strLower ("Compare HSA and FSA for reimbursement, contribution and COBRA".data)) ("hsa".data) = true ∧
    strContains (strLower ("Compare HSA and FSA for reimbursement, contribution and COBRA".data)) ("fsa".data) = true ∧
    determineQueryType ("Compare HSA and FSA for reimbursement, contribution and COBRA".data) = "HSA Benefits".data :=
  ⟨by decide, by decide,
    classify_hsa_and_fsa ("Compare HSA and FSA for reimbursement, contribution and COBRA".data)
      (by decide) (by decide)⟩

/-- The bullet-collecting loop shared by `_extract_recommendations`,
`_extract_action_items` and `_get_next_steps`: trim each line, collect lines
starting with "-" or "*" (stripping the marker and trimming; the first two
callers additionally drop a bullet whose remainder is empty, which
`requireClean` selects), and stop at the first non-bullet line containing one
of the terminator markers. -/
def collectBullets (markers : List Str) (requireClean : Bool) : List Str → List Str
  | [] => []
  | l :: rest =>
    let line := strTrim l
    if !line.isEmpty && (strStartsWith ("-".data) line || strStartsWith ("*".data) line) then
      let clean := strTrim (line.drop 1)
      if requireClean && clean.isEmpty then collectBullets markers requireClean rest
      else clean :: collectBullets markers requireClean rest
    else if markers.any (fun m => strContains (strLower line) m) then []
    else collectBullets markers requireClean rest

/-- Default recommendations used when the text mentions both HSA and FSA. -/
def recsDefHsaFsa : List Str :=
  [ "Compare HSA and FSA features based on your healthcare needs".data,
    "Review contribution limits for both accounts".data,
    "Consider your eligibility status for each account".data,
    "Evaluate your expected healthcare expenses".data ]

/-- Default recommendations used when the text mentions HSA only. -/
def recsDefHsa : List Str :=
  [ "Verify your HDHP enrollment status".data,
    "Review HSA contribution strategies".data,
    "Consider investment options if available".data,
    "Track qualified medical expenses".data ]

/-- Default recommendations used when the text mentions FSA only. -/
def recsDefFsa : List Str :=
  [ "Plan your FSA contributions carefully".data,
    "Review FSA-eligible expenses".data,
    "Track FSA deadlines and grace periods".data,
    "Keep all receipts for reimbursement".data ]

/-- Default recommendations used when the text mentions neither account. -/
def recsDefGeneral : List Str :=
  [ "Schedule a benefits consultation for personalized guidance".data,
    "Review your current benefits elections".data,
    "Consider any upcoming life changes".data,
    "Keep your benefits information up to date".data ]

/-- `ManagerAgent._extract_recommendations`: collect bullet lines after a
case-insensitive "recommendations:" label (the section text itself is the
lower-cased input), falling back to a default list keyed by keywords of the
full text when nothing was collected. -/
def extract_recommendations (text : Str) : List Str :=
  let lower := strLower text
  let fromText :=
    if strContains lower ("recommendations:".data) then
      collectBullets [("action items:".data), ("next steps:".data)] true
        (strSplitOn ((strSplitOn lower ("recommendations:".data)).getD 1 []) ("\n".data))
    else []
  if fromText.isEmpty then
    if strContains lower ("hsa".data) && strContains lower ("fsa".data) then recsDefHsaFsa
    else if strContains lower ("hsa".data) then recsDefHsa
    else if strContains lower ("fsa".data) then recsDefFsa
    else recsDefGeneral
  else fromText

/-- Default action items used when the text mentions both HSA and FSA. -/
def aiDefHsaFsa : List Str :=
  [ "Review current benefits enrollment status".data,
    "Calculate potential contributions for each account".data,
    "Document expected medical expenses".data,
    "Schedule benefits consultation if needed".data ]

/-- Default action items used when the text mentions HSA only. -/
def aiDefHsa : List Str :=
  [ "Verify HDHP enrollment".data,
    "Set up HSA contributions".data,
    "Review investment options".data,
    "Organize medical expense records".data ]

/-- Default action items used when the text mentions FSA only. -/
def aiDefFsa : List Str :=
  [ "Calculate FSA contribution needs".data,
    "Submit FSA enrollment form".data,
    "Set up FSA payment card".data,
    "Create FSA expense tracking system".data ]

/-- Default action items used when the text mentions neither account. -/
def aiDefGeneral : List Str :=
  [ "Review benefits documentation".data,
    "Contact HR for clarification if needed".data,
    "Update personal information".data,
    "Schedule follow-up if necessary".data ]

/-- `ManagerAgent._extract_action_items`: same shape as the recommendations
extractor, scoped to an "action items:" label and terminated by
"next steps:". -/
def extract_action_items (text : Str) : List Str :=
  let lower := strLower text
  let fromText :=
    if strContains lower ("action items:".data) then
      collectBullets [("next steps:".data)] true
        (strSplitOn ((strSplitOn lower ("action items:".data)).getD 1 []) ("\n".data))
    else []
  if fromText.isEmpty then
    if strContains lower ("hsa".data) && strContains lower ("fsa".data) then aiDefHsaFsa
    else if strContains lower ("hsa".data) then aiDefHsa
    else if strContains lower ("fsa".data) then aiDefFsa
    else aiDefGeneral
  else fromText

/-- Default next steps used when the text mentions both HSA and FSA. -/
def nsDefHsaFsa : List Str :=
  [ "Review your HSA and FSA eligibility status".data,
    "Compare contribution limits and rollover rules".data,
    "Consider your healthcare spending patterns".data,
    "Consult with HR about enrollment options".data ]

/-- Default next steps used when the text mentions HSA only. -/
def nsDefHsa : List Str :=
  [ "Check your HDHP enrollment status".data,
    "Review HSA contribution limits".data,
    "Consider catch-up contributions if eligible".data,
    "Set up automatic HSA contributions".data ]

/-- Default next steps used when the text mentions FSA only. -/
def nsDefFsa : List Str :=
  [ "Review FSA eligible expenses".data,
    "Plan your annual FSA contribution".data,
    "Set up FSA reimbursement process".data,
    "Track FSA spending deadlines".data ]

/-- Default next steps used when the text mentions COBRA. -/
def nsDefCobra : List Str :=
  [ "Review COBRA eligibility requirements".data,
    "Compare COBRA costs with alternatives".data,
    "Check election deadlines".data,
    "Gather required documentation".data ]

/-- Default next steps used when the text mentions none of the programs. -/
def nsDefGeneral : List Str :=
  [ "Review your benefits documentation".data,
    "Schedule a benefits consultation".data,
    "Update your benefits preferences".data,
    "Contact HR for additional guidance".data ]

/-- `ManagerAgent._get_next_steps`: collect bullet lines after a
case-insensitive "next steps:" label (bullets are kept even when empty after
the marker is stripped), falling back to keyword-keyed defaults. -/
def get_next_steps (text : Str) : List Str :=
  let lower := strLower text
  let fromText :=
    if strContains lower ("next steps:".data) then
      collectBullets [("recommendations:".data), ("action items:".data)] false
        (strSplitOn ((strSplitOn lower ("next steps:".data)).getD 1 []) ("\n".data))
    else []
  if fromText.isEmpty then
    if strContains lower ("hsa".data) && strContains lower ("fsa".data) then nsDefHsaFsa
    else if strContains lower ("hsa".data) then nsDefHsa
    else if strContains lower ("fsa".data) then nsDefFsa
    else if strContains lower ("cobra".data) then nsDefCobra
    else nsDefGeneral
  else fromText

/-- The structured response assembled by `ManagerAgent._format_response`
(the debug-info entries, which carry wall-clock timestamps, are outside the
data the specification speaks about and are omitted). -/
structure StructuredResponse where
  message : Str
  recommendations : List Str
  action_items : List Str
  next_steps : List Str

/-- `ManagerAgent._format_response`: the message is the text after the first
"Final Answer:" label (trimmed), or the whole text trimmed when the label is
absent; recommendations, action items (when not supplied by the caller) and
next steps are extracted from that message text. -/
def format_response (analysis_result : Str) (actionItemsArg : Option (List Str)) :
    StructuredResponse :=
  let answer :=
    match strAfterFirst analysis_result ("Final Answer:".data) with
    | some rest => strTrim rest
    | none => strTrim analysis_result
  { message := answer,
    recommendations := extract_recommendations answer,
    action_items :=
      match actionItemsArg with
      | some ai => ai
      | none => extract_action_items answer,
    next_steps := get_next_steps answer }

/-- `ManagerAgent._format_empty_response`: empty recommendation and action
lists, and a fixed single-sentence next-steps list. -/
def format_empty_response (message : Str) : StructuredResponse :=
  { message := message,
    recommendations := [],
    action_items := [],
    next_steps := [("Please provide more information about your benefits scenario".data)] }

/-- The step of `ManagerAgent.analyze_query` that consumes the LLM chain
call: a successful reply is piped through `format_response` together with
the query-derived action items; a raised exception is caught and converted
via `format_empty_response`. -/
def analyze_query_chain (chainResult : Except Str Str) (queryActionItems : List Str) :
    StructuredResponse :=
  match chainResult with
  | Except.ok chainResponse => format_response chainResponse (some queryActionItems)
  | Except.error e =>
      format_empty_response (("An error occurred while processing your request: ".data) ++ e)

/-- The raw text of the C2 test case. -/
def c2text : Str := "Recommendations:\n- Do X\n- Do Y\nAction Items:\n- Do Z".data

/-- C2 counterexample: on the raw text
"Recommendations:\n- Do X\n- Do Y\nAction Items:\n- Do Z" the formatter does
not return the recommendations ["Do X", "Do Y"]: the bullet lines are
lower-cased, because the section text the collector walks is the
lower-cased copy of the input. -/
theorem formatter_bullets_case_cex :
    (format_response c2text none).recommendations ≠ [("Do X".data), ("Do Y".data)] := by
  decide

/-- C2 (amended): on the same raw text the formatter returns
recommendations ["do x", "do y"] and action items ["do z"]: each bullet line
is lower-cased (the extractors operate on the lower-cased text), has its
leading bullet marker stripped and is trimmed. -/
theorem formatter_bullets_lowercased :
    (format_response c2text none).recommendations = [("do x".data), ("do y".data)] ∧
    (format_response c2text none).action_items = [("do z".data)] := by
  refine ⟨by decide, by decide⟩

/-- C3 counterexample: when the LLM chain call raises, the structured
response returned by `analyze_query` does not have all three lists empty:
its next-steps list carries one fixed sentence. -/
theorem analyze_query_error_next_steps_cex :
    (analyze_query_chain (Except.error ("simulated network failure".data)) []).next_steps ≠ [] := by
  decide

/-- C3 (amended): every exception raised by the LLM chain call is caught and
converted into a structured response whose message is the human-readable
string "An error occurred while processing your request: " followed by the
exception text, whose recommendations and action items are empty, and whose
next-steps list is the single fixed sentence asking for more information;
no exception propagates. -/
theorem analyze_query_error_handled (e : Str) (queryActionItems : List Str) :
    analyze_query_chain (Except.error e) queryActionItems =
      { message := ("An error occurred while processing your request: ".data) ++ e,
        recommendations := [],
        action_items := [],
        next_steps := [("Please provide more information about your benefits scenario".data)] } :=
  rfl

/-- The raw text of the C6 test case. -/
def c6text : Str := "no structured sections here".data

/-- C6 counterexample: on the raw text "no structured sections here" the
formatter does not draw the default recommendations or action items from
the FSA default tables: the formatter has no topic input, and this text
mentions neither "fsa" nor "hsa". -/
theorem formatter_defaults_topic_cex :
    (format_response c6text none).recommendations ≠ recsDefFsa ∧
    (format_response c6text none).action_items ≠ aiDefFsa := by
  refine ⟨by decide, by decide⟩

/-- C6 (amended): on the raw text "no structured sections here" the
formatter returns the full input text as the message, and non-empty default
recommendations and action items drawn from the general default tables,
since the defaults are keyed by keywords of the text rather than by a topic
argument. -/
theorem formatter_defaults_general :
    (format_response c6text none).message = c6text ∧
    (format_response c6text none).recommendations = recsDefGeneral ∧
    (format_response c6text none).action_items = aiDefGeneral ∧
    recsDefGeneral ≠ [] ∧ aiDefGeneral ≠ [] := by
  refine ⟨by decide, by decide, by decide, by decide, by decide⟩

/-- C9: the formatter is deterministic: two calls on identical raw analysis
text (and the same optional action-item argument) agree on the message, the
recommendations, the action items and the next steps. -/
theorem format_response_deterministic (t : Str) (ai : Option (List Str)) :
    (format_response t ai).message = (format_response t ai).message ∧
    (format_response t ai).recommendations = (format_response t ai).recommendations ∧
    (format_response t ai).action_items = (format_response t ai).action_items ∧
    (format_response t ai).next_steps = (format_response t ai).next_steps :=
  ⟨rfl, rfl, rfl, rfl⟩

/-- A value stored under a metric key of the wellness metrics dictionary:
either a number (Python `int()` accepts it) or a raw string, which `int()`
accepts only when it is an integer literal. -/
inductive MetricValue where
  | num : Int → MetricValue
  | raw : Str → MetricValue

/-- Digits of a non-empty decimal literal, or `none` on a non-digit. -/
def digitsToNatAux : Str → Nat → Option Nat
  | [], acc => some acc
  | c :: cs, acc =>
    if c.isDigit then digitsToNatAux cs (acc * 10 + (c.toNat - 48)) else none

/-- A non-empty all-digit string as a natural number. -/
def digitsToNat : Str → Option Nat
  | [] => none
  | s => digitsToNatAux s 0

/-- Python `int(s)` on a string: strip whitespace, optional sign, decimal
digits; any other shape raises (modelled as `none`). -/
def pyParseInt (s : Str) : Option Int :=
  match strTrim s with
  | '-' :: rest => (digitsToNat rest).map (fun n => -(n : Int))
  | '+' :: rest => (digitsToNat rest).map (fun n => (n : Int))
  | t => (digitsToNat t).map (fun n => (n : Int))

/-- Python `int(v)` on a metric value. -/
def pyInt : MetricValue → Option Int
  | MetricValue.num n => some n
  | MetricValue.raw s => pyParseInt s

/-- The wellness metrics dictionary, restricted to the five keys the rule
engine reads; a missing key is `none` (the source supplies `0` as the
`dict.get` default). -/
structure WellnessMetrics where
  heart_rate : Option MetricValue
  sleep_hours : Option MetricValue
  exercise_minutes : Option MetricValue
  daily_steps : Option MetricValue
  stress_level : Option MetricValue

/-- The conversion block at the top of the `try` in
`WellnessAgent._generate_health_recommendations`: all five metrics are
converted with `int(...)` before any threshold is checked, so a single
failure (modelled as `none`) aborts the whole block. -/
def convertAllMetrics (m : WellnessMetrics) : Option (Int × Int × Int × Int × Int) := do
  let hr ← pyInt (m.heart_rate.getD (MetricValue.num 0))
  let sl ← pyInt (m.sleep_hours.getD (MetricValue.num 0))
  let ex ← pyInt (m.exercise_minutes.getD (MetricValue.num 0))
  let ds ← pyInt (m.daily_steps.getD (MetricValue.num 0))
  let st ← pyInt (m.stress_level.getD (MetricValue.num 0))
  pure (hr, sl, ex, ds, st)

/-- Advisory emitted when heart_rate > 80. -/
def heartRateMsg : Str :=
  "Your heart rate is elevated. Consider incorporating more cardiovascular exercise and stress reduction techniques.".data

/-- Advisory emitted when sleep_hours < 7. -/
def sleepMsg : Str :=
  "You\x27re getting less than the recommended amount of sleep. Try to establish a regular sleep schedule aiming for 7-9 hours.".data

/-- Advisory emitted when exercise_minutes < 30. -/
def exerciseMsg : Str :=
  "Increase your daily physical activity to at least 30 minutes of moderate exercise most days.".data

/-- Advisory emitted when daily_steps < 8000. -/
def stepsMsg : Str :=
  "Try to increase your daily step count. A goal of 10,000 steps per day can improve overall health.".data

/-- Advisory emitted when stress_level > 6. -/
def stressMsg : Str :=
  "Your stress levels are elevated. Consider stress management techniques like meditation or counseling.".data

/-- Sentence appended by the `except` branch when a metric conversion
raises. -/
def parseFailMsg : Str :=
  "Consider scheduling a wellness check-up to establish your baseline health metrics.".data

/-- Sentence appended when the risk-factor list is non-empty. -/
def riskFactorMsg : Str :=
  "Discuss identified health risk factors with your healthcare provider during your next visit.".data

/-- Sentence returned when the recommendation list would otherwise be
empty. -/
def defaultCheckupMsg : Str :=
  "Schedule a wellness check-up to establish your baseline health metrics.".data

/-- `WellnessAgent._generate_health_recommendations`: convert the five
metrics (absent keys default to 0), append one fixed advisory per breached
threshold; if any conversion raises, append the single baseline sentence
instead; append the risk-factor sentence when risk factors are present; and
never return an empty list. -/
def generate_health_recommendations (metrics : WellnessMetrics) (risk_factors : List Str) :
    List Str :=
  let base :=
    match convertAllMetrics metrics with
    | some (hr, sl, ex, ds, st) =>
      (if hr > 80 then [heartRateMsg] else []) ++
      (if sl < 7 then [sleepMsg] else []) ++
      (if ex < 30 then [exerciseMsg] else []) ++
      (if ds < 8000 then [stepsMsg] else []) ++
      (if st > 6 then [stressMsg] else [])
    | none => [parseFailMsg]
  let withRisk := base ++ (if risk_factors.isEmpty then [] else [riskFactorMsg])
  if withRisk.isEmpty then [defaultCheckupMsg] else withRisk

/-- The metrics record of the C4 counterexample: an unparseable heart-rate
value next to a parseable, threshold-breaching sleep value. -/
def c4metrics : WellnessMetrics :=
  { heart_rate := some (MetricValue.raw ("N/A".data)),
    sleep_hours := some (MetricValue.num 5),
    exercise_minutes := none,
    daily_steps := none,
    stress_level := none }

/-- C4 counterexample: with an unparseable heart-rate value, the parseable
sleep value 5 (below the threshold 7) no longer contributes its advisory:
the engine returns only the baseline sentence, because all five conversions
sit in one `try` block ahead of every threshold check. -/
theorem wellness_parse_skip_cex :
    pyInt (c4metrics.sleep_hours.getD (MetricValue.num 0)) = some 5 ∧
    generate_health_recommendations c4metrics [] = [parseFailMsg] ∧
    sleepMsg ∉ generate_health_recommendations c4metrics [] := by
  refine ⟨by decide, by decide, by decide⟩

/-- C4 (amended): whenever any metric value fails to convert, the engine
abandons every threshold check and appends the single baseline check-up
sentence instead; the call still returns normally, with the risk-factor
sentence appended when risk factors are present. -/
theorem wellness_parse_failure_aborts (m : WellnessMetrics) (rf : List Str)
    (h : convertAllMetrics m = none) :
    generate_health_recommendations m rf =
      parseFailMsg :: (if rf.isEmpty then [] else [riskFactorMsg]) := by
  simp only [generate_health_recommendations, h]
  split
  · simp_all
  · rfl

/-- C4 witness: the amended theorem applied to the concrete metrics record
with the unparseable heart-rate value. -/
theorem wellness_parse_failure_aborts_w :
    convertAllMetrics c4metrics = none ∧
    generate_health_recommendations c4metrics [] = [parseFailMsg] := by
  refine ⟨by decide, ?_⟩
  have h := wellness_parse_failure_aborts c4metrics [] (by decide)
  simpa using h

/-- The empty metrics record. -/
def emptyMetrics : WellnessMetrics :=
  { heart_rate := none,
    sleep_hours := none,
    exercise_minutes := none,
    daily_steps := none,
    stress_level := none }

/-- C5 counterexample: on an empty metrics record and no risk factors the
engine does not return exactly one entry: every absent metric defaults to 0,
so the sleep, exercise and steps thresholds all fire and three advisories
come back. -/
theorem wellness_empty_metrics_cex :
    (generate_health_recommendations emptyMetrics []).length ≠ 1 := by
  decide

/-- C5 (amended): on an empty metrics record and no risk factors the engine
returns exactly three entries, the insufficient-sleep, low-exercise and
low-steps advisories, because each absent metric defaults to 0 before its
threshold comparison; the single check-up/baseline sentence is produced
instead by the enclosing `_format_risk_assessment` when the metrics record
is empty. -/
theorem wellness_empty_metrics_three :
    generate_health_recommendations emptyMetrics [] = [sleepMsg, exerciseMsg, stepsMsg] := by
  decide

/-- The metrics record of the C7 test case: every threshold breached. -/
def c7metrics : WellnessMetrics :=
  { heart_rate := some (MetricValue.num 85),
    sleep_hours := some (MetricValue.num 5),
    exercise_minutes := some (MetricValue.num 10),
    daily_steps := some (MetricValue.num 3000),
    stress_level := some (MetricValue.num 8) }

/-- C7: on the metrics record {heart_rate 85, sleep_hours 5,
exercise_minutes 10, daily_steps 3000, stress_level 8} with no risk factors,
the engine returns at least five entries, and each entry contains, after
lower-casing, one of the substrings "heart rate", "sleep", "exercise",
"steps", "stress". -/
theorem wellness_all_thresholds_breached :
    5 ≤ (generate_health_recommendations c7metrics []).length ∧
    ((generate_health_recommendations c7metrics []).all fun r =>
      strContains (strLower r) ("heart rate".data) ||
      strContains (strLower r) ("sleep".data) ||
      strContains (strLower r) ("exercise".data) ||
      strContains (strLower r) ("steps".data) ||
      strContains (strLower r) ("stress".data)) = true := by
  refine ⟨by decide, by decide⟩

/-- A list guarded by a default on emptiness is never empty. -/
theorem listOrDefault_ne_nil (l : List Str) (d : Str) :
    (if l.isEmpty then [d] else l) ≠ [] := by
  cases l
  · simp
  · simp

/-- C8: for every metrics record and every risk-factor list the engine
returns a non-empty list: when nothing else was appended it falls back to
the single default wellness check-up sentence. -/
theorem wellness_never_empty (m : WellnessMetrics) (rf : List Str) :
    generate_health_recommendations m rf ≠ [] := by
  unfold generate_health_recommendations
  exact listOrDefault_ne_nil _ _
